import Mathlib

/-!
Verification development for the Prometheus/OpenTelemetry metrics simulator
(`prommetricsgenerate.py`).

The Python program is embedded shallowly:

* Randomness (`random.random`, `random.uniform`, `random.randint`,
  `random.choice`) is modelled by an oracle `u : Nat → ℚ` of unit-interval
  draws, consumed positionally; each library primitive is a pure function of
  one draw.
* Registry A (the `prometheus_client` registry) is modelled from the spec,
  since the library's code is not part of the repository's sources: per-series
  accumulated counter/gauge/histogram/summary state with a validating
  `record` operation and a deterministic text serialization.
* The HTTP handler `MetricsHandler.do_GET` is modelled as a pure function
  from (method, path, application state, oracle position) to a wire
  transcript (status line, headers, body writes) and a new application state.
-/

namespace PromSim

/-- Unit-interval draw oracle: position `i` stands for the `i`-th call into
the `random` module during the run being analysed. -/
def UnitOracle : Type := Nat → ℚ

/-- The oracle only produces values in `[0, 1]`, as `random.random` does. -/
def inUnit (u : UnitOracle) : Prop := ∀ i, 0 ≤ u i ∧ u i ≤ 1

/-- Modelled from the spec: `random.choice` picks one element of a non-empty
list, driven here by one unit draw. -/
def choice (xs : List String) (r : ℚ) : String :=
  xs.getD ((Int.toNat ⌊r * xs.length⌋) % xs.length) ""

/-- Modelled from the spec: `random.uniform a b` returns a value in `[a, b]`,
here `a + (b - a) * r` for a unit draw `r`. -/
def uniform (a b r : ℚ) : ℚ := a + (b - a) * r

/-- Modelled from the spec: `random.randint a b` returns an integer in
`[a, b]` inclusive, here derived from one unit draw. -/
def randint (a b : ℕ) (r : ℚ) : ℕ :=
  a + (Int.toNat ⌊r * ((b : ℚ) - (a : ℚ) + 1)⌋) % (b - a + 1)

/-- One recording action against a metric registry: the four update shapes
used by the generator functions (`.inc`, `.set`, `.observe` on a histogram,
`.observe` on a summary). -/
inductive Event
  | counterInc (n : String) (ls : List String) (a : ℚ)
  | gaugeSet (n : String) (ls : List String) (v : ℚ)
  | histObserve (n : String) (ls : List String) (v : ℚ)
  | summaryObserve (n : String) (ls : List String) (v : ℚ)
deriving DecidableEq, Repr

/-- The (instrument kind, metric name) pair of an event; label values and
numeric payloads are dropped. Used to count recorded samples. -/
def Event.key : Event → String × String
  | .counterInc n _ _ => ("counter", n)
  | .gaugeSet n _ _ => ("gauge", n)
  | .histObserve n _ _ => ("histogram", n)
  | .summaryObserve n _ _ => ("summary", n)

inductive MetricKind
  | counter | gauge | histogram | summary | info | enum
deriving DecidableEq, Repr

/-- A registered metric: name, help text, ordered label dimensions, kind and
(for histograms) ascending bucket boundaries. -/
structure MetricDef where
  name : String
  help : String
  labelNames : List String
  kind : MetricKind
  buckets : List ℚ
deriving DecidableEq, Repr

/-- The states declared for the `app_state` enum metric
(`prommetricsgenerate.py` lines 111-115). -/
def appStateStates : List String := ["starting", "running", "degraded", "shutting_down"]

/-- The label set recorded on the `app` info metric
(`prommetricsgenerate.py` lines 104-109). -/
def appInfoLabels : List (String × String) :=
  [("version", "1.2.3"), ("environment", "production"),
   ("build_date", "2024-12-01"), ("git_commit", "abc123def")]

/-- Registry A's metric definitions, in registration order
(`prommetricsgenerate.py` lines 22-116). -/
def promDefs : List MetricDef :=
  [⟨"http_requests_total", "Total HTTP requests",
     ["method", "endpoint", "status"], .counter, []⟩,
   ⟨"http_errors_total", "Total HTTP errors",
     ["method", "endpoint", "error_type"], .counter, []⟩,
   ⟨"bytes_processed_total", "Total bytes processed",
     ["operation"], .counter, []⟩,
   ⟨"active_connections", "Number of active connections",
     ["protocol"], .gauge, []⟩,
   ⟨"memory_usage_bytes", "Current memory usage in bytes",
     ["region"], .gauge, []⟩,
   ⟨"queue_size", "Current queue size",
     ["queue_name"], .gauge, []⟩,
   ⟨"cpu_usage_percent", "Current CPU usage percentage",
     [], .gauge, []⟩,
   ⟨"http_request_duration_seconds", "HTTP request duration in seconds",
     ["method", "endpoint", "status"], .histogram,
     [1/10, 1/2, 1, 2, 5, 10]⟩,
   ⟨"db_query_duration_seconds", "Database query duration in seconds",
     ["query_type", "table"], .histogram,
     [1/1000, 1/200, 1/100, 1/40, 1/20, 1/10, 1/4, 1/2, 1]⟩,
   ⟨"response_size_bytes", "HTTP response size in bytes",
     ["endpoint"], .histogram,
     [100, 1000, 10000, 100000, 1000000, 10000000]⟩,
   ⟨"request_duration_seconds_summary", "Request duration summary with quantiles",
     ["method", "endpoint"], .summary, []⟩,
   ⟨"payload_size_bytes_summary", "Payload size summary",
     ["direction"], .summary, []⟩,
   ⟨"app", "Application information", [], .info, []⟩,
   ⟨"app_state", "Current application state", [], .enum, []⟩]

/-- Look a metric definition up by name. -/
def findDef (defs : List MetricDef) (n : String) : Option MetricDef :=
  defs.find? (fun d => d.name = n)

/-- Per-series histogram state: the bucket boundaries, one cumulative count
per boundary, the running sum and the total observation count.  Modelled from
the spec: this is how the client library accumulates histogram observations
(each observation bumps every bucket whose boundary it does not exceed). -/
structure HistState where
  bounds : List ℚ
  counts : List ℕ
  total : ℚ
  cnt : ℕ
deriving DecidableEq, Repr

def HistState.init (bs : List ℚ) : HistState :=
  ⟨bs, bs.map (fun _ => 0), 0, 0⟩

def HistState.observe (h : HistState) (v : ℚ) : HistState :=
  ⟨h.bounds,
   (h.bounds.zip h.counts).map (fun bc => if v ≤ bc.1 then bc.2 + 1 else bc.2),
   h.total + v, h.cnt + 1⟩

/-- Series key: metric name paired with the label-value tuple. -/
abbrev SeriesKey := String × List String

/-- Update an association list at a key, creating the entry from `v0` on
first touch (per-series state is created lazily on first observation). -/
def bumpWith {V : Type} (m : List (SeriesKey × V)) (k : SeriesKey) (v0 : V) (f : V → V) :
    List (SeriesKey × V) :=
  match m with
  | [] => [(k, f v0)]
  | (k', v) :: rest =>
    if k' = k then (k', f v) :: rest else (k', v) :: bumpWith rest k v0 f

/-- Look up a key in an association list, with a default. -/
def lookupD {V : Type} (m : List (SeriesKey × V)) (k : SeriesKey) (d : V) : V :=
  match m with
  | [] => d
  | (k', v) :: rest => if k' = k then v else lookupD rest k d

/-- Registry A state: per-series accumulated values for each instrument
family, plus the current `app_state` enum value.  Series are kept in
first-observation order. -/
structure RegA where
  counters : List (SeriesKey × ℚ)
  gauges : List (SeriesKey × ℚ)
  hists : List (SeriesKey × HistState)
  summaries : List (SeriesKey × (ℚ × ℕ))
  appState : String
deriving DecidableEq, Repr

/-- Registry A just after the registration block ran: no series yet, enum set
to `running` (`prommetricsgenerate.py` line 116). -/
def RegA.start : RegA := ⟨[], [], [], [], "running"⟩

inductive RecordError
  | unknownMetric | labelMismatch | invalidValue
deriving DecidableEq, Repr

/-- Modelled from the spec: registry A's `record` contract (§4.1) — the
client library's code is not under the repository's sources.  Fails with
`unknownMetric` if no definition of the right kind carries the name,
`labelMismatch` if the label-value tuple's arity differs from the declared
dimensions, `invalidValue` on a negative counter increment; otherwise applies
the point update to the addressed series. -/
def RegA.record (st : RegA) (e : Event) : Except RecordError RegA :=
  match e with
  | .counterInc n ls a =>
    match findDef promDefs n with
    | none => .error .unknownMetric
    | some d =>
      if d.kind ≠ .counter then .error .unknownMetric
      else if ls.length ≠ d.labelNames.length then .error .labelMismatch
      else if a < 0 then .error .invalidValue
      else .ok { st with counters := bumpWith st.counters (n, ls) 0 (· + a) }
  | .gaugeSet n ls v =>
    match findDef promDefs n with
    | none => .error .unknownMetric
    | some d =>
      if d.kind ≠ .gauge then .error .unknownMetric
      else if ls.length ≠ d.labelNames.length then .error .labelMismatch
      else .ok { st with gauges := bumpWith st.gauges (n, ls) 0 (fun _ => v) }
  | .histObserve n ls v =>
    match findDef promDefs n with
    | none => .error .unknownMetric
    | some d =>
      if d.kind ≠ .histogram then .error .unknownMetric
      else if ls.length ≠ d.labelNames.length then .error .labelMismatch
      else .ok { st with hists := bumpWith st.hists (n, ls) (HistState.init d.buckets) (·.observe v) }
  | .summaryObserve n ls v =>
    match findDef promDefs n with
    | none => .error .unknownMetric
    | some d =>
      if d.kind ≠ .summary then .error .unknownMetric
      else if ls.length ≠ d.labelNames.length then .error .labelMismatch
      else .ok { st with summaries := bumpWith st.summaries (n, ls) (0, 0) (fun p => (p.1 + v, p.2 + 1)) }

/-- Apply a list of events in order; on the first failing `record` the
already-applied updates are kept (mutations in the Python generators happen
one call at a time) and the error is reported. -/
def RegA.recordAll (st : RegA) : List Event → RegA × Option RecordError
  | [] => (st, none)
  | e :: es =>
    match st.record e with
    | .ok st' => st'.recordAll es
    | .error err => (st, some err)

/-! ### Text serialization of registry A -/

/-- The series of one metric name, in first-observation order, as serialized. -/
def samplesFor {V : Type} (m : List (SeriesKey × V)) (n : String) : List (List String × V) :=
  m.filterMap (fun kv => if kv.1.1 = n then some (kv.1.2, kv.2) else none)

/-- `name="value"` label pairs joined by commas. -/
def renderLabelPairs (names vals : List String) : String :=
  String.intercalate "," ((names.zip vals).map (fun p => p.1 ++ "=\"" ++ p.2 ++ "\""))

/-- One sample line of the exposition format. -/
def renderSample (base : String) (names vals : List String) (v : String) : String :=
  if names.isEmpty then base ++ " " ++ v ++ "\n"
  else base ++ "\x7b" ++ renderLabelPairs names vals ++ "\x7d " ++ v ++ "\n"

def kindText : MetricKind → String
  | .counter => "counter"
  | .gauge => "gauge"
  | .histogram => "histogram"
  | .summary => "summary"
  | .info => "info"
  | .enum => "stateset"

def helpTypeLines (d : MetricDef) : String :=
  "# HELP " ++ d.name ++ " " ++ d.help ++ "\n# TYPE " ++ d.name ++ " " ++ kindText d.kind ++ "\n"

/-- All serialized lines of one histogram series: one cumulative bucket line
per boundary, the implicit `+Inf` bucket, `_sum` and `_count`.  Both the
`+Inf` bucket and `_count` emit the series' total observation count. -/
def renderHistSeries (d : MetricDef) (ls : List String) (h : HistState) : String :=
  String.join ((h.bounds.zip h.counts).map (fun bc =>
    renderSample (d.name ++ "_bucket") (d.labelNames ++ ["le"]) (ls ++ [toString bc.1]) (toString bc.2)))
  ++ renderSample (d.name ++ "_bucket") (d.labelNames ++ ["le"]) (ls ++ ["+Inf"]) (toString h.cnt)
  ++ renderSample (d.name ++ "_sum") d.labelNames ls (toString h.total)
  ++ renderSample (d.name ++ "_count") d.labelNames ls (toString h.cnt)

/-- Modelled from the spec: the deterministic line-oriented serialization of
one metric definition out of registry A's current state (§4.1; the client
library's `generate_latest` is not under the repository's sources). -/
def serializeDef (st : RegA) (d : MetricDef) : String :=
  helpTypeLines d ++
  match d.kind with
  | .counter =>
    String.join ((samplesFor st.counters d.name).map (fun p =>
      renderSample d.name d.labelNames p.1 (toString p.2)))
  | .gauge =>
    String.join ((samplesFor st.gauges d.name).map (fun p =>
      renderSample d.name d.labelNames p.1 (toString p.2)))
  | .histogram =>
    String.join ((samplesFor st.hists d.name).map (fun p => renderHistSeries d p.1 p.2))
  | .summary =>
    String.join ((samplesFor st.summaries d.name).map (fun p =>
      renderSample (d.name ++ "_sum") d.labelNames p.1 (toString p.2.1)
      ++ renderSample (d.name ++ "_count") d.labelNames p.1 (toString p.2.2)))
  | .info =>
    renderSample (d.name ++ "_info") (appInfoLabels.map Prod.fst) (appInfoLabels.map Prod.snd) "1.0"
  | .enum =>
    String.join (appStateStates.map (fun s =>
      renderSample d.name [d.name] [s] (if st.appState = s then "1.0" else "0.0")))

/-- Full text serialization of registry A, a pure function of its state. -/
def serializeA (st : RegA) : String :=
  String.join (promDefs.map (serializeDef st))

/-! ### Registry-A generator functions -/

def httpMethods : List String := ["GET", "POST", "PUT", "DELETE"]
def httpEndpoints : List String := ["/users", "/orders", "/products", "/auth"]
def dbQueryTypes : List String := ["SELECT", "INSERT", "UPDATE", "DELETE"]
def dbTables : List String := ["users", "orders", "products"]
def sysProtocols : List String := ["http", "grpc", "websocket"]
def sysRegions : List String := ["heap", "stack", "cache"]
def sysQueues : List String := ["high_priority", "normal", "low_priority"]

/-- One iteration of `generate_prometheus_http_metrics`
(`prommetricsgenerate.py` lines 249-274): the recorded events and the next
oracle position. -/
def genPromHttpIter (u : UnitOracle) (pos : ℕ) : List Event × ℕ :=
  let method := choice httpMethods (u pos)
  let endpoint := choice httpEndpoints (u (pos + 1))
  if u (pos + 2) < 9/10 then
    let duration := uniform (1/20) 2 (u (pos + 3))
    let size := randint 100 50000 (u (pos + 4))
    ([Event.counterInc "http_requests_total" [method, endpoint, "200"] 1,
      Event.histObserve "http_request_duration_seconds" [method, endpoint, "200"] duration,
      Event.summaryObserve "request_duration_seconds_summary" [method, endpoint] duration,
      Event.histObserve "response_size_bytes" [endpoint] (size : ℚ)], pos + 5)
  else if u (pos + 3) < 1/2 then
    let duration := uniform (1/100) (1/10) (u (pos + 4))
    let size := randint 100 50000 (u (pos + 5))
    ([Event.counterInc "http_errors_total" [method, endpoint, "not_found"] 1,
      Event.counterInc "http_requests_total" [method, endpoint, "404"] 1,
      Event.histObserve "http_request_duration_seconds" [method, endpoint, "404"] duration,
      Event.summaryObserve "request_duration_seconds_summary" [method, endpoint] duration,
      Event.histObserve "response_size_bytes" [endpoint] (size : ℚ)], pos + 6)
  else
    let duration := uniform (1/2) 5 (u (pos + 4))
    let size := randint 100 50000 (u (pos + 5))
    ([Event.counterInc "http_errors_total" [method, endpoint, "internal_error"] 1,
      Event.counterInc "http_requests_total" [method, endpoint, "500"] 1,
      Event.histObserve "http_request_duration_seconds" [method, endpoint, "500"] duration,
      Event.summaryObserve "request_duration_seconds_summary" [method, endpoint] duration,
      Event.histObserve "response_size_bytes" [endpoint] (size : ℚ)], pos + 6)

/-- `generate_prometheus_http_metrics(count)` (lines 244-274). -/
def genPromHttp (u : UnitOracle) : ℕ → ℕ → List Event × ℕ
  | 0, pos => ([], pos)
  | n + 1, pos =>
    let r := genPromHttpIter u pos
    let rest := genPromHttp u n r.2
    (r.1 ++ rest.1, rest.2)

/-- One iteration of `generate_prometheus_database_metrics` (lines 314-318).
The conditional expression evaluates exactly one `random.uniform` call. -/
def genPromDbIter (u : UnitOracle) (pos : ℕ) : List Event × ℕ :=
  let qt := choice dbQueryTypes (u pos)
  let tbl := choice dbTables (u (pos + 1))
  let duration :=
    if qt = "SELECT" then uniform (1/1000) (1/10) (u (pos + 2))
    else uniform (1/200) (1/5) (u (pos + 2))
  ([Event.histObserve "db_query_duration_seconds" [qt, tbl] duration], pos + 3)

/-- `generate_prometheus_database_metrics(count)` (lines 309-318). -/
def genPromDb (u : UnitOracle) : ℕ → ℕ → List Event × ℕ
  | 0, pos => ([], pos)
  | n + 1, pos =>
    let r := genPromDbIter u pos
    let rest := genPromDb u n r.2
    (r.1 ++ rest.1, rest.2)

/-- `generate_prometheus_system_metrics()` (lines 333-350): one fixed pass
of gauge sets and two byte-counter increments. -/
def genPromSystem (u : UnitOracle) (pos : ℕ) : List Event × ℕ :=
  ([Event.gaugeSet "active_connections" ["http"] (randint 10 100 (u pos) : ℚ),
    Event.gaugeSet "active_connections" ["grpc"] (randint 10 100 (u (pos + 1)) : ℚ),
    Event.gaugeSet "active_connections" ["websocket"] (randint 10 100 (u (pos + 2)) : ℚ),
    Event.gaugeSet "memory_usage_bytes" ["heap"] (randint 1000000 50000000 (u (pos + 3)) : ℚ),
    Event.gaugeSet "memory_usage_bytes" ["stack"] (randint 1000000 50000000 (u (pos + 4)) : ℚ),
    Event.gaugeSet "memory_usage_bytes" ["cache"] (randint 1000000 50000000 (u (pos + 5)) : ℚ),
    Event.gaugeSet "queue_size" ["high_priority"] (randint 0 100 (u (pos + 6)) : ℚ),
    Event.gaugeSet "queue_size" ["normal"] (randint 0 100 (u (pos + 7)) : ℚ),
    Event.gaugeSet "queue_size" ["low_priority"] (randint 0 100 (u (pos + 8)) : ℚ),
    Event.gaugeSet "cpu_usage_percent" [] (uniform 10 90 (u (pos + 9))),
    Event.counterInc "bytes_processed_total" ["upload"] (randint 100000 1000000 (u (pos + 10)) : ℚ),
    Event.counterInc "bytes_processed_total" ["download"] (randint 500000 5000000 (u (pos + 11)) : ℚ)],
   pos + 12)

/-- One iteration of `generate_prometheus_payload_metrics` (lines 378-380). -/
def genPromPayloadIter (u : UnitOracle) (pos : ℕ) : List Event × ℕ :=
  ([Event.summaryObserve "payload_size_bytes_summary" ["inbound"] (randint 100 10000 (u pos) : ℚ),
    Event.summaryObserve "payload_size_bytes_summary" ["outbound"] (randint 500 50000 (u (pos + 1)) : ℚ)],
   pos + 2)

/-- `generate_prometheus_payload_metrics(count)` (lines 376-380). -/
def genPromPayload (u : UnitOracle) : ℕ → ℕ → List Event × ℕ
  | 0, pos => ([], pos)
  | n + 1, pos =>
    let r := genPromPayloadIter u pos
    let rest := genPromPayload u n r.2
    (r.1 ++ rest.1, rest.2)

/-- `generate_all_prometheus_metrics()` (lines 390-397): HTTP with count 50,
database with count 30, one system pass, payload with count 20. -/
def genAllProm (u : UnitOracle) (pos : ℕ) : List Event × ℕ :=
  let h := genPromHttp u 50 pos
  let d := genPromDb u 30 h.2
  let s := genPromSystem u d.2
  let p := genPromPayload u 20 s.2
  (h.1 ++ d.1 ++ s.1 ++ p.1, p.2)

/-! ### Registry B (OpenTelemetry) -/

/-- Ordered string-keyed map, used for the observable-gauge snapshot dicts. -/
def setAssoc (m : List (String × ℚ)) (k : String) (v : ℚ) : List (String × ℚ) :=
  match m with
  | [] => [(k, v)]
  | (k', v') :: rest =>
    if k' = k then (k', v) :: rest else (k', v') :: setAssoc rest k v

/-- The `otel_gauge_values` external snapshot (`prommetricsgenerate.py`
lines 159-164), read by the observable-gauge callbacks. -/
structure OtelGaugeValues where
  activeConnections : List (String × ℚ)
  memoryUsage : List (String × ℚ)
  queueSize : List (String × ℚ)
  cpuUsage : ℚ
deriving DecidableEq, Repr

def OtelGaugeValues.start : OtelGaugeValues := ⟨[], [], [], 0⟩

/-- One iteration of `generate_otel_http_metrics` (lines 282-306); unlike the
registry-A variant there is no summary observation. -/
def genOtelHttpIter (u : UnitOracle) (pos : ℕ) : List Event × ℕ :=
  let method := choice httpMethods (u pos)
  let endpoint := choice httpEndpoints (u (pos + 1))
  if u (pos + 2) < 9/10 then
    let duration := uniform (1/20) 2 (u (pos + 3))
    let size := randint 100 50000 (u (pos + 4))
    ([Event.counterInc "http_requests_total" [method, endpoint, "200"] 1,
      Event.histObserve "http_request_duration_seconds" [method, endpoint, "200"] duration,
      Event.histObserve "response_size_bytes" [endpoint] (size : ℚ)], pos + 5)
  else if u (pos + 3) < 1/2 then
    let duration := uniform (1/100) (1/10) (u (pos + 4))
    let size := randint 100 50000 (u (pos + 5))
    ([Event.counterInc "http_errors_total" [method, endpoint, "not_found"] 1,
      Event.counterInc "http_requests_total" [method, endpoint, "404"] 1,
      Event.histObserve "http_request_duration_seconds" [method, endpoint, "404"] duration,
      Event.histObserve "response_size_bytes" [endpoint] (size : ℚ)], pos + 6)
  else
    let duration := uniform (1/2) 5 (u (pos + 4))
    let size := randint 100 50000 (u (pos + 5))
    ([Event.counterInc "http_errors_total" [method, endpoint, "internal_error"] 1,
      Event.counterInc "http_requests_total" [method, endpoint, "500"] 1,
      Event.histObserve "http_request_duration_seconds" [method, endpoint, "500"] duration,
      Event.histObserve "response_size_bytes" [endpoint] (size : ℚ)], pos + 6)

/-- `generate_otel_http_metrics(count)` (lines 277-306). -/
def genOtelHttp (u : UnitOracle) : ℕ → ℕ → List Event × ℕ
  | 0, pos => ([], pos)
  | n + 1, pos =>
    let r := genOtelHttpIter u pos
    let rest := genOtelHttp u n r.2
    (r.1 ++ rest.1, rest.2)

/-- One iteration of `generate_otel_database_metrics` (lines 326-330). -/
def genOtelDbIter (u : UnitOracle) (pos : ℕ) : List Event × ℕ :=
  let qt := choice dbQueryTypes (u pos)
  let tbl := choice dbTables (u (pos + 1))
  let duration :=
    if qt = "SELECT" then uniform (1/1000) (1/10) (u (pos + 2))
    else uniform (1/200) (1/5) (u (pos + 2))
  ([Event.histObserve "db_query_duration_seconds" [qt, tbl] duration], pos + 3)

/-- `generate_otel_database_metrics(count)` (lines 321-330). -/
def genOtelDb (u : UnitOracle) : ℕ → ℕ → List Event × ℕ
  | 0, pos => ([], pos)
  | n + 1, pos =>
    let r := genOtelDbIter u pos
    let rest := genOtelDb u n r.2
    (r.1 ++ rest.1, rest.2)

/-- `generate_otel_system_metrics()` (lines 353-373): overwrites the
observable-gauge snapshot wholesale and adds the two byte counters. -/
def genOtelSystem (u : UnitOracle) (pos : ℕ) (g : OtelGaugeValues) :
    OtelGaugeValues × List Event × ℕ :=
  let ac := setAssoc (setAssoc (setAssoc g.activeConnections
    "http" (randint 10 100 (u pos) : ℚ))
    "grpc" (randint 10 100 (u (pos + 1)) : ℚ))
    "websocket" (randint 10 100 (u (pos + 2)) : ℚ)
  let mu := setAssoc (setAssoc (setAssoc g.memoryUsage
    "heap" (randint 1000000 50000000 (u (pos + 3)) : ℚ))
    "stack" (randint 1000000 50000000 (u (pos + 4)) : ℚ))
    "cache" (randint 1000000 50000000 (u (pos + 5)) : ℚ)
  let qs := setAssoc (setAssoc (setAssoc g.queueSize
    "high_priority" (randint 0 100 (u (pos + 6)) : ℚ))
    "normal" (randint 0 100 (u (pos + 7)) : ℚ))
    "low_priority" (randint 0 100 (u (pos + 8)) : ℚ)
  (⟨ac, mu, qs, uniform 10 90 (u (pos + 9))⟩,
   [Event.counterInc "bytes_processed_total" ["upload"] (randint 100000 1000000 (u (pos + 10)) : ℚ),
    Event.counterInc "bytes_processed_total" ["download"] (randint 500000 5000000 (u (pos + 11)) : ℚ)],
   pos + 12)

/-- One iteration of `generate_otel_payload_metrics` (lines 385-387). -/
def genOtelPayloadIter (u : UnitOracle) (pos : ℕ) : List Event × ℕ :=
  ([Event.histObserve "payload_size_bytes" ["inbound"] (randint 100 10000 (u pos) : ℚ),
    Event.histObserve "payload_size_bytes" ["outbound"] (randint 500 50000 (u (pos + 1)) : ℚ)],
   pos + 2)

/-- `generate_otel_payload_metrics(count)` (lines 383-387). -/
def genOtelPayload (u : UnitOracle) : ℕ → ℕ → List Event × ℕ
  | 0, pos => ([], pos)
  | n + 1, pos =>
    let r := genOtelPayloadIter u pos
    let rest := genOtelPayload u n r.2
    (r.1 ++ rest.1, rest.2)

/-- `generate_all_otel_metrics()` (lines 400-407). -/
def genAllOtel (u : UnitOracle) (pos : ℕ) (g : OtelGaugeValues) :
    List Event × OtelGaugeValues × ℕ :=
  let h := genOtelHttp u 50 pos
  let d := genOtelDb u 30 h.2
  let s := genOtelSystem u d.2 g
  let p := genOtelPayload u 20 s.2.2
  (h.1 ++ d.1 ++ s.2.1 ++ p.1, s.1, p.2)

/-! ### The JSON body of `/otelmetrics` -/

/-- A JSON value, as produced by `json.dumps` on the literal of
`prommetricsgenerate.py` lines 599-690. -/
inductive Json
  | str (s : String)
  | num (q : ℚ)
  | arr (xs : List Json)
  | obj (fields : List (String × Json))
deriving Repr

mutual
/-- Render a JSON value to text; every string this produces is well-formed
JSON by construction. -/
def Json.render : Json → String
  | .str s => "\"" ++ s ++ "\""
  | .num q => toString q
  | .arr xs => "[" ++ Json.renderItems xs ++ "]"
  | .obj fs => "\x7b" ++ Json.renderFields fs ++ "\x7d"

def Json.renderItems : List Json → String
  | [] => ""
  | [j] => Json.render j
  | j :: js => Json.render j ++ ", " ++ Json.renderItems js

def Json.renderFields : List (String × Json) → String
  | [] => ""
  | [p] => "\"" ++ p.1 ++ "\": " ++ Json.render p.2
  | p :: ps => "\"" ++ p.1 ++ "\": " ++ Json.render p.2 ++ ", " ++ Json.renderFields ps
end

/-- A string is valid JSON when it is the rendering of some JSON value. -/
def jsonParses (s : String) : Prop := ∃ j : Json, Json.render j = s

/-- The resource attributes fixed at process start
(`prommetricsgenerate.py` lines 124-129, `Resource.create`). -/
def startupResource : List (String × String) :=
  [("service.name", "prometheus-metrics-app"),
   ("service.version", "1.2.3"),
   ("service.instance.id", "instance-1"),
   ("deployment.environment", "production")]

/-- Turn a snapshot dict into the JSON object used for `current_values`. -/
def gaugeValuesJson (m : List (String × ℚ)) : Json :=
  .obj (m.map (fun p => (p.1, Json.num p.2)))

/-- The `otel_metrics_summary` dict built by the `/otelmetrics` handler
(`prommetricsgenerate.py` lines 599-690): hardcoded resource attributes and
scope identity, static metadata for every instrument, and the live
observable-gauge snapshot values. -/
def otelSummary (g : OtelGaugeValues) : Json :=
  .obj
    [("resource", .obj
       [("attributes", .obj (startupResource.map (fun p => (p.1, Json.str p.2))))]),
     ("scope_metrics", .arr
       [.obj
         [("scope", .obj [("name", .str "prometheus-metrics-app"), ("version", .str "1.2.3")]),
          ("metrics", .arr
            [.obj [("name", .str "http_requests_total"),
                   ("description", .str "Total HTTP requests"),
                   ("unit", .str "1"), ("type", .str "Counter"),
                   ("note", .str "Actual values tracked internally")],
             .obj [("name", .str "http_errors_total"),
                   ("description", .str "Total HTTP errors"),
                   ("unit", .str "1"), ("type", .str "Counter")],
             .obj [("name", .str "bytes_processed_total"),
                   ("description", .str "Total bytes processed"),
                   ("unit", .str "bytes"), ("type", .str "Counter")],
             .obj [("name", .str "active_connections"),
                   ("description", .str "Number of active connections"),
                   ("unit", .str "1"), ("type", .str "Observable Gauge"),
                   ("current_values", gaugeValuesJson g.activeConnections)],
             .obj [("name", .str "memory_usage_bytes"),
                   ("description", .str "Current memory usage in bytes"),
                   ("unit", .str "bytes"), ("type", .str "Observable Gauge"),
                   ("current_values", gaugeValuesJson g.memoryUsage)],
             .obj [("name", .str "queue_size"),
                   ("description", .str "Current queue size"),
                   ("unit", .str "1"), ("type", .str "Observable Gauge"),
                   ("current_values", gaugeValuesJson g.queueSize)],
             .obj [("name", .str "cpu_usage_percent"),
                   ("description", .str "Current CPU usage percentage"),
                   ("unit", .str "%"), ("type", .str "Observable Gauge"),
                   ("current_value", Json.num g.cpuUsage)],
             .obj [("name", .str "http_request_duration_seconds"),
                   ("description", .str "HTTP request duration in seconds"),
                   ("unit", .str "s"), ("type", .str "Histogram")],
             .obj [("name", .str "db_query_duration_seconds"),
                   ("description", .str "Database query duration in seconds"),
                   ("unit", .str "s"), ("type", .str "Histogram")],
             .obj [("name", .str "response_size_bytes"),
                   ("description", .str "HTTP response size in bytes"),
                   ("unit", .str "bytes"), ("type", .str "Histogram")],
             .obj [("name", .str "payload_size_bytes"),
                   ("description", .str "Payload size"),
                   ("unit", .str "bytes"), ("type", .str "Histogram")]])]]),
     ("note", .str "This is a simplified representation. In production, OTEL metrics would be exported to an OTEL collector via OTLP protocol (gRPC or HTTP).")]

/-- Field projection on a JSON object. -/
def jsonField (j : Json) (k : String) : Option Json :=
  match j with
  | .obj fs => (fs.find? (fun p => p.1 = k)).map Prod.snd
  | _ => none

/-- The resource attributes carried by an `/otelmetrics` response body. -/
def otelResourceAttrs (j : Json) : List (String × Json) :=
  match jsonField j "resource" with
  | some r =>
    match jsonField r "attributes" with
    | some (.obj fs) => fs
    | _ => []
  | none => []

/-! ### HTTP front door -/

/-- One observable action on the client connection (or the server log), in
the order `MetricsHandler.do_GET` performs them.  `runGenerators` marks the
point where a generator set executes, between `end_headers()` and the body
write. -/
inductive Wire
  | sendStatus (n : ℕ)
  | sendHeader (k v : String)
  | endHeaders
  | runGenerators (which : String)
  | write (s : String)
  | logError (e : RecordError)
deriving DecidableEq, Repr

/-- Whole-process state: registry A, registry B's recorded events, and the
observable-gauge snapshot. -/
structure AppState where
  regA : RegA
  regB : List Event
  otelGauges : OtelGaugeValues
deriving DecidableEq, Repr

def AppState.start : AppState := ⟨RegA.start, [], OtelGaugeValues.start⟩

/-- The help page served on `/` (`prommetricsgenerate.py` lines 423-543);
the HTML literal is abbreviated here since no behaviour depends on its
content. -/
def homePage : String :=
  "<!DOCTYPE html><html><head><title>Prometheus & OTEL Metrics Simulator</title></head><body>help page</body></html>"

/-- The plaintext confirmation written by `/generatemetrics`
(lines 553-562). -/
def promGenBody : String :=
  "Prometheus metrics generated successfully!\n\nGenerated:\n- 50 HTTP request samples\n- 30 Database query samples\n- System metrics (connections, memory, CPU, queues)\n- 20 Payload size samples\n\nView metrics at: http://localhost:8000/metrics\n"

/-- The plaintext confirmation written by `/generateotelmetrics`
(lines 572-584). -/
def otelGenBody : String :=
  "OpenTelemetry metrics generated successfully!\n\nGenerated:\n- 50 HTTP request samples (OTEL format)\n- 30 Database query samples (OTEL format)\n- System metrics (connections, memory, CPU, queues)\n- 20 Payload size samples (OTEL format)\n\nView metrics at: http://localhost:8000/otelmetrics\n\nNote: OTEL metrics are shown in a simplified JSON format.\nIn production, these would be exported to an OTEL collector using OTLP protocol.\n"

/-- The content type of the exposition format (`CONTENT_TYPE_LATEST`). -/
def contentTypeLatest : String := "text/plain; version=0.0.4; charset=utf-8"

/-- The wire transcript of a generator route: `send_response(200)`,
`send_header`, `end_headers()` all happen before the generator set runs; only
if every `record` call succeeded is the confirmation body written, otherwise
the propagating error is logged and nothing more reaches the client. -/
def generateTranscript (which : String) (err : Option RecordError) (okBody : String) :
    List Wire :=
  [Wire.sendStatus 200, Wire.sendHeader "Content-type" "text/plain",
   Wire.endHeaders, Wire.runGenerators which] ++
  match err with
  | none => [Wire.write okBody]
  | some e => [Wire.logError e]

/-- The transcript of the `404` fallthrough branch (lines 694-698). -/
def notFoundTranscript : List Wire :=
  [Wire.sendStatus 404, Wire.sendHeader "Content-type" "text/plain",
   Wire.endHeaders, Wire.write "404 - Not Found"]

/-- `MetricsHandler.do_GET` (lines 417-698) as a pure function: dispatch on
the exact path, produce the wire transcript, the new process state and the
next oracle position.  Requests whose method is not GET take the not-found
branch; that dispatch is modelled from the spec (§6), since the base HTTP
server class handling non-GET methods is not part of the repository's
sources. -/
def handle (method path : String) (st : AppState) (u : UnitOracle) (pos : ℕ) :
    List Wire × AppState × ℕ :=
  if method ≠ "GET" then (notFoundTranscript, st, pos)
  else if path = "/" then
    ([Wire.sendStatus 200, Wire.sendHeader "Content-type" "text/html",
      Wire.endHeaders, Wire.write homePage], st, pos)
  else if path = "/generatemetrics" then
    let g := genAllProm u pos
    let r := st.regA.recordAll g.1
    (generateTranscript "prometheus" r.2 promGenBody, { st with regA := r.1 }, g.2)
  else if path = "/generateotelmetrics" then
    let g := genAllOtel u pos st.otelGauges
    (generateTranscript "otel" none otelGenBody,
     { st with regB := st.regB ++ g.1, otelGauges := g.2.1 }, g.2.2)
  else if path = "/metrics" then
    ([Wire.sendStatus 200, Wire.sendHeader "Content-type" contentTypeLatest,
      Wire.endHeaders, Wire.write (serializeA st.regA)], st, pos)
  else if path = "/otelmetrics" then
    ([Wire.sendStatus 200, Wire.sendHeader "Content-type" "application/json",
      Wire.endHeaders, Wire.write (Json.render (otelSummary st.otelGauges))], st, pos)
  else (notFoundTranscript, st, pos)

/-- The five paths `do_GET` routes. -/
def fixedRoutes : List String :=
  ["/", "/generatemetrics", "/generateotelmetrics", "/metrics", "/otelmetrics"]

/-- The response body: concatenation of all `write` payloads. -/
def bodyOf (t : List Wire) : String :=
  String.join (t.filterMap (fun w => match w with | .write s => some s | _ => none))

/-- The response status: the first status line sent. -/
def statusOf (t : List Wire) : Option ℕ :=
  (t.filterMap (fun w => match w with | .sendStatus n => some n | _ => none)).head?

/-- The value of the first `Content-type` header sent. -/
def contentTypeOf (t : List Wire) : Option String :=
  (t.filterMap (fun w =>
    match w with | .sendHeader k v => if k = "Content-type" then some v else none | _ => none)).head?

/-! ### Shutdown path -/

/-- The steps `run_server`'s `except KeyboardInterrupt` branch performs, in
order (`prommetricsgenerate.py` lines 722-725), after the termination signal
(SIGINT / KeyboardInterrupt) is received. -/
inductive ShutdownStep
  | printMsg
  | setAppState (s : String)
  | serverShutdownCall
deriving DecidableEq, Repr

/-- On a termination signal: print, move the `app_state` enum to
`shutting_down`, then call `server.shutdown()` which stops the listener. -/
def terminationSteps : List ShutdownStep :=
  [ShutdownStep.printMsg, ShutdownStep.setAppState "shutting_down",
   ShutdownStep.serverShutdownCall]

/-- The enum value after running a prefix of shutdown steps. -/
def appStateAfter (steps : List ShutdownStep) (s0 : String) : String :=
  steps.foldl (fun s step => match step with | .setAppState s' => s' | _ => s) s0

/-- A request is unroutable when its method is not GET or its path is none of
the five fixed routes. -/
def notFoundRequest (method path : String) : Prop :=
  method ≠ "GET" ∨ path ∉ fixedRoutes

/-- What the claim about unroutable requests asserts of one request: the
not-found transcript, status 404, a non-empty plaintext body, and an
unchanged process state (hence both registries unchanged). -/
def notFoundOutcome (method path : String) (st : AppState) (u : UnitOracle) (pos : ℕ) : Prop :=
  (handle method path st u pos).1 = notFoundTranscript ∧
  statusOf (handle method path st u pos).1 = some 404 ∧
  bodyOf (handle method path st u pos).1 ≠ "" ∧
  contentTypeOf (handle method path st u pos).1 = some "text/plain" ∧
  (handle method path st u pos).2.1 = st

/-! ### Sample counting (for the fixed-count property of `/generatemetrics`) -/

/-- The (kind, name) keys of a list of recorded events. -/
def keysOf (evs : List Event) : List (String × String) := evs.map Event.key

/-- How many samples of a given (kind, name) key a generator run recorded. -/
def sampleCount (evs : List Event) (k : String × String) : ℕ := (keysOf evs).count k

/-- Keys of one HTTP-generator iteration on the 200 branch. -/
def httpOkKeys : List (String × String) :=
  [("counter", "http_requests_total"),
   ("histogram", "http_request_duration_seconds"),
   ("summary", "request_duration_seconds_summary"),
   ("histogram", "response_size_bytes")]

/-- Keys of one HTTP-generator iteration on an error branch (404 or 500). -/
def httpErrKeys : List (String × String) :=
  ("counter", "http_errors_total") :: httpOkKeys

/-- Keys of one database-generator iteration. -/
def dbIterKeys : List (String × String) := [("histogram", "db_query_duration_seconds")]

/-- Keys of the single system-metrics pass. -/
def sysKeys : List (String × String) :=
  [("gauge", "active_connections"), ("gauge", "active_connections"),
   ("gauge", "active_connections"),
   ("gauge", "memory_usage_bytes"), ("gauge", "memory_usage_bytes"),
   ("gauge", "memory_usage_bytes"),
   ("gauge", "queue_size"), ("gauge", "queue_size"), ("gauge", "queue_size"),
   ("gauge", "cpu_usage_percent"),
   ("counter", "bytes_processed_total"), ("counter", "bytes_processed_total")]

/-- Keys of one payload-generator iteration. -/
def payloadIterKeys : List (String × String) :=
  [("summary", "payload_size_bytes_summary"), ("summary", "payload_size_bytes_summary")]

/-! ### Histogram bucket arithmetic -/

/-- How many of the observations are at or below a boundary. -/
def countLE (obs : List ℚ) (b : ℚ) : ℕ := obs.countP (fun v => decide (v ≤ b))

/-- The histogram series state after recording a list of observations from a
fresh series with the given boundaries. -/
def histAfter (bs obs : List ℚ) : HistState :=
  obs.foldl HistState.observe (HistState.init bs)

/-- The HTTP duration histogram's definition (`prommetricsgenerate.py`
lines 65-70). -/
def httpDurDef : MetricDef :=
  ⟨"http_request_duration_seconds", "HTTP request duration in seconds",
   ["method", "endpoint", "status"], .histogram, [1/10, 1/2, 1, 2, 5, 10]⟩

/-! ### Counter accumulation -/

/-- A validating check: the event is a counter increment with a non-negative
amount, addressed at a registered counter with the right label arity. -/
def counterIncOk (e : Event) : Bool :=
  match e with
  | .counterInc n ls a =>
    (match findDef promDefs n with
     | some d => decide (d.kind = MetricKind.counter) && decide (ls.length = d.labelNames.length)
     | none => false) && decide (0 ≤ a)
  | _ => false

/-- The exact sum of the amounts recorded against one counter series. -/
def sumAmounts (evs : List Event) (nm : String) (ls : List String) : ℚ :=
  (evs.filterMap (fun e =>
    match e with
    | .counterInc n l a => if n = nm ∧ l = ls then some a else none
    | _ => none)).sum

/-- Whether some increment addressed the given counter series. -/
def hasIncTo (evs : List Event) (nm : String) (ls : List String) : Bool :=
  evs.any (fun e =>
    match e with
    | .counterInc n l _ => decide (n = nm) && decide (l = ls)
    | _ => false)

/-! ### The per-iteration branch behaviour of the HTTP generator -/

/-- What one HTTP-generator iteration records, by branch: driven by the first
post-label draw, status 200 with a duration in `[0.05, 2.0]`; otherwise, by a
second draw, status 404 with a duration in `[0.01, 0.1]` and a `not_found`
error increment, or status 500 with a duration in `[0.5, 5.0]` and an
`internal_error` increment; in every branch the request counter is bumped by
1, the duration is observed in the histogram and the summary, and an integer
response size in `[100, 50000]` is observed. -/
def httpIterSpec (u : UnitOracle) (pos : ℕ) : Prop :=
  let m := choice httpMethods (u pos)
  let ep := choice httpEndpoints (u (pos + 1))
  (u (pos + 2) < 9/10 →
    ∃ (d : ℚ) (s : ℕ),
      (genPromHttpIter u pos).1 =
        [Event.counterInc "http_requests_total" [m, ep, "200"] 1,
         Event.histObserve "http_request_duration_seconds" [m, ep, "200"] d,
         Event.summaryObserve "request_duration_seconds_summary" [m, ep] d,
         Event.histObserve "response_size_bytes" [ep] (s : ℚ)] ∧
      1/20 ≤ d ∧ d ≤ 2 ∧ 100 ≤ s ∧ s ≤ 50000) ∧
  (¬ u (pos + 2) < 9/10 → u (pos + 3) < 1/2 →
    ∃ (d : ℚ) (s : ℕ),
      (genPromHttpIter u pos).1 =
        [Event.counterInc "http_errors_total" [m, ep, "not_found"] 1,
         Event.counterInc "http_requests_total" [m, ep, "404"] 1,
         Event.histObserve "http_request_duration_seconds" [m, ep, "404"] d,
         Event.summaryObserve "request_duration_seconds_summary" [m, ep] d,
         Event.histObserve "response_size_bytes" [ep] (s : ℚ)] ∧
      1/100 ≤ d ∧ d ≤ 1/10 ∧ 100 ≤ s ∧ s ≤ 50000) ∧
  (¬ u (pos + 2) < 9/10 → ¬ u (pos + 3) < 1/2 →
    ∃ (d : ℚ) (s : ℕ),
      (genPromHttpIter u pos).1 =
        [Event.counterInc "http_errors_total" [m, ep, "internal_error"] 1,
         Event.counterInc "http_requests_total" [m, ep, "500"] 1,
         Event.histObserve "http_request_duration_seconds" [m, ep, "500"] d,
         Event.summaryObserve "request_duration_seconds_summary" [m, ep] d,
         Event.histObserve "response_size_bytes" [ep] (s : ℚ)] ∧
      1/2 ≤ d ∧ d ≤ 5 ∧ 100 ≤ s ∧ s ≤ 50000)

/-! ## Basic lemmas -/

theorem randint_ge (a b : ℕ) (r : ℚ) : a ≤ randint a b r := Nat.le_add_right a _

theorem randint_le (a b : ℕ) (r : ℚ) (hab : a ≤ b) : randint a b r ≤ b := by
  have h : (Int.toNat ⌊r * ((b : ℚ) - (a : ℚ) + 1)⌋) % (b - a + 1) < b - a + 1 :=
    Nat.mod_lt _ (Nat.succ_pos _)
  unfold randint
  omega

theorem uniform_mem (a b r : ℚ) (hab : a ≤ b) (h0 : 0 ≤ r) (h1 : r ≤ 1) :
    a ≤ uniform a b r ∧ uniform a b r ≤ b := by
  unfold uniform
  constructor
  · nlinarith
  · nlinarith

theorem sampleCount_append (a b : List Event) (k : String × String) :
    sampleCount (a ++ b) k = sampleCount a k + sampleCount b k := by
  simp [sampleCount, keysOf, List.count_append]

theorem genPromHttpIter_keys (u : UnitOracle) (pos : ℕ) :
    keysOf (genPromHttpIter u pos).1 = httpOkKeys ∨
      keysOf (genPromHttpIter u pos).1 = httpErrKeys := by
  simp only [genPromHttpIter]
  split_ifs <;> first | (left; rfl) | (right; rfl)

theorem count_genPromHttp (u : UnitOracle) (k : String × String) (c : ℕ)
    (h1 : httpOkKeys.count k = c) (h2 : httpErrKeys.count k = c) :
    ∀ (n pos : ℕ), sampleCount (genPromHttp u n pos).1 k = n * c := by
  intro n
  induction n with
  | zero => intro pos; simp [genPromHttp, sampleCount, keysOf]
  | succ n ih =>
    intro pos
    have hs : (genPromHttp u (n + 1) pos).1 =
        (genPromHttpIter u pos).1 ++ (genPromHttp u n (genPromHttpIter u pos).2).1 := rfl
    rw [hs, sampleCount_append, ih]
    have hiter : sampleCount (genPromHttpIter u pos).1 k = c := by
      rcases genPromHttpIter_keys u pos with hk | hk <;>
        simp only [sampleCount, hk, h1, h2]
    rw [hiter, Nat.succ_mul]
    omega

theorem count_genPromDb (u : UnitOracle) (k : String × String) (c : ℕ)
    (h : dbIterKeys.count k = c) :
    ∀ (n pos : ℕ), sampleCount (genPromDb u n pos).1 k = n * c := by
  intro n
  induction n with
  | zero => intro pos; simp [genPromDb, sampleCount, keysOf]
  | succ n ih =>
    intro pos
    have hs : (genPromDb u (n + 1) pos).1 =
        (genPromDbIter u pos).1 ++ (genPromDb u n (genPromDbIter u pos).2).1 := rfl
    have hiter : sampleCount (genPromDbIter u pos).1 k = c := by
      simp only [sampleCount]
      rw [show keysOf (genPromDbIter u pos).1 = dbIterKeys from rfl, h]
    rw [hs, sampleCount_append, ih, hiter, Nat.succ_mul]
    omega

theorem count_genPromPayload (u : UnitOracle) (k : String × String) (c : ℕ)
    (h : payloadIterKeys.count k = c) :
    ∀ (n pos : ℕ), sampleCount (genPromPayload u n pos).1 k = n * c := by
  intro n
  induction n with
  | zero => intro pos; simp [genPromPayload, sampleCount, keysOf]
  | succ n ih =>
    intro pos
    have hs : (genPromPayload u (n + 1) pos).1 =
        (genPromPayloadIter u pos).1 ++ (genPromPayload u n (genPromPayloadIter u pos).2).1 := rfl
    have hiter : sampleCount (genPromPayloadIter u pos).1 k = c := by
      simp only [sampleCount]
      rw [show keysOf (genPromPayloadIter u pos).1 = payloadIterKeys from rfl, h]
    rw [hs, sampleCount_append, ih, hiter, Nat.succ_mul]
    omega

theorem count_genPromSystem (u : UnitOracle) (pos : ℕ) (k : String × String) (c : ℕ)
    (h : sysKeys.count k = c) : sampleCount (genPromSystem u pos).1 k = c := by
  simp only [sampleCount]
  rw [show keysOf (genPromSystem u pos).1 = sysKeys from rfl, h]

theorem genAllProm_count (u : UnitOracle) (pos : ℕ) (k : String × String)
    (cH cD cS cP : ℕ)
    (hok : httpOkKeys.count k = cH) (herr : httpErrKeys.count k = cH)
    (hdb : dbIterKeys.count k = cD) (hsys : sysKeys.count k = cS)
    (hpl : payloadIterKeys.count k = cP) :
    sampleCount (genAllProm u pos).1 k = 50 * cH + 30 * cD + cS + 20 * cP := by
  have hs : (genAllProm u pos).1 =
      (genPromHttp u 50 pos).1 ++ (genPromDb u 30 (genPromHttp u 50 pos).2).1 ++
        (genPromSystem u (genPromDb u 30 (genPromHttp u 50 pos).2).2).1 ++
        (genPromPayload u 20
          (genPromSystem u (genPromDb u 30 (genPromHttp u 50 pos).2).2).2).1 := rfl
  rw [hs, sampleCount_append, sampleCount_append, sampleCount_append,
    count_genPromHttp u k cH hok herr 50 pos, count_genPromDb u k cD hdb 30 _,
    count_genPromSystem u _ k cS hsys, count_genPromPayload u k cP hpl 20 _]

/-! ## Histogram lemmas -/

theorem countLE_mono (obs : List ℚ) (b1 b2 : ℚ) (h : b1 ≤ b2) :
    countLE obs b1 ≤ countLE obs b2 := by
  unfold countLE
  induction obs with
  | nil => simp
  | cons v t ih =>
    rw [List.countP_cons, List.countP_cons]
    by_cases h1 : v ≤ b1
    · have h2 : v ≤ b2 := h1.trans h
      simp only [h1, h2, decide_True, if_true]
      omega
    · by_cases h2 : v ≤ b2 <;> simp [h1, h2] <;> omega

theorem zip_map_apply (g : ℚ → ℕ → ℕ) (bs : List ℚ) (f : ℚ → ℕ) :
    (bs.zip (bs.map f)).map (fun bc => g bc.1 bc.2) = bs.map (fun b => g b (f b)) := by
  induction bs with
  | nil => rfl
  | cons b t ih => simp [ih]

theorem foldl_observe (bs : List ℚ) (obs : List ℚ) :
    ∀ (f : ℚ → ℕ) (s : ℚ) (c : ℕ),
      (obs.foldl HistState.observe ⟨bs, bs.map f, s, c⟩).counts =
        bs.map (fun b => f b + countLE obs b) ∧
      (obs.foldl HistState.observe ⟨bs, bs.map f, s, c⟩).cnt = c + obs.length := by
  induction obs with
  | nil =>
    intro f s c
    constructor
    · simp [countLE]
    · simp
  | cons v t ih =>
    intro f s c
    have hob : HistState.observe ⟨bs, bs.map f, s, c⟩ v =
        ⟨bs, bs.map (fun b => if v ≤ b then f b + 1 else f b), s + v, c + 1⟩ := by
      show (⟨bs, (bs.zip (bs.map f)).map
          (fun bc => if v ≤ bc.1 then bc.2 + 1 else bc.2), s + v, c + 1⟩ : HistState) = _
      rw [zip_map_apply (fun b n => if v ≤ b then n + 1 else n) bs f]
    rw [List.foldl_cons, hob]
    obtain ⟨hc, hn⟩ := ih (fun b => if v ≤ b then f b + 1 else f b) (s + v) (c + 1)
    refine ⟨?_, ?_⟩
    · rw [hc]
      apply List.map_congr_left
      intro b _
      unfold countLE
      rw [List.countP_cons]
      by_cases hv : v ≤ b <;> simp [hv] <;> omega
    · rw [hn, List.length_cons]
      omega

theorem histAfter_spec (bs obs : List ℚ) :
    (histAfter bs obs).counts = bs.map (fun b => countLE obs b) ∧
    (histAfter bs obs).cnt = obs.length := by
  have h := foldl_observe bs obs (fun _ => 0) 0 0
  unfold histAfter HistState.init
  refine ⟨?_, ?_⟩
  · rw [h.1]
    simp
  · rw [h.2]
    omega

theorem histSeriesOk (bs : List ℚ) (hbs : List.Chain' (· ≤ ·) bs) (obs : List ℚ) :
    (histAfter bs obs).counts = bs.map (fun b => countLE obs b) ∧
    List.Chain' (· ≤ ·) (histAfter bs obs).counts ∧
    (histAfter bs obs).cnt = obs.length := by
  obtain ⟨h1, h2⟩ := histAfter_spec bs obs
  refine ⟨h1, ?_, h2⟩
  rw [h1, List.chain'_map]
  exact hbs.imp (fun a b hab => countLE_mono obs a b hab)

/-! ## Counter accumulation lemmas -/

theorem lookupD_bumpWith_self {V : Type} (m : List (SeriesKey × V)) (k : SeriesKey)
    (v0 : V) (f : V → V) :
    lookupD (bumpWith m k v0 f) k v0 = f (lookupD m k v0) := by
  induction m with
  | nil => simp [bumpWith, lookupD]
  | cons p t ih =>
    obtain ⟨k', v⟩ := p
    unfold bumpWith
    by_cases h : k' = k
    · subst h
      simp [lookupD]
    · simp only [h, if_false]
      unfold lookupD
      simp only [h, if_false, ih]

theorem lookupD_bumpWith_ne {V : Type} (m : List (SeriesKey × V)) (k j : SeriesKey)
    (v0 d : V) (f : V → V) (h : j ≠ k) :
    lookupD (bumpWith m k v0 f) j d = lookupD m j d := by
  induction m with
  | nil => simp [bumpWith, lookupD, Ne.symm h]
  | cons p t ih =>
    obtain ⟨k', v⟩ := p
    unfold bumpWith
    by_cases hk : k' = k
    · subst hk
      unfold lookupD
      simp [Ne.symm h]
    · simp only [hk, if_false]
      unfold lookupD
      by_cases hj : k' = j <;> simp [hj, ih]

theorem mem_keys_bumpWith_self {V : Type} (m : List (SeriesKey × V)) (k : SeriesKey)
    (v0 : V) (f : V → V) : k ∈ (bumpWith m k v0 f).map Prod.fst := by
  induction m with
  | nil => exact List.mem_cons_self _ _
  | cons p t ih =>
    obtain ⟨k', v⟩ := p
    unfold bumpWith
    by_cases h : k' = k
    · rw [if_pos h, List.map_cons]
      exact List.mem_cons.mpr (Or.inl h.symm)
    · rw [if_neg h, List.map_cons]
      exact List.mem_cons_of_mem _ ih

theorem mem_keys_bumpWith_mono {V : Type} (m : List (SeriesKey × V)) (k j : SeriesKey)
    (v0 : V) (f : V → V) (h : j ∈ m.map Prod.fst) :
    j ∈ (bumpWith m k v0 f).map Prod.fst := by
  induction m with
  | nil => simp at h
  | cons p t ih =>
    obtain ⟨k', v⟩ := p
    rw [List.map_cons] at h
    unfold bumpWith
    by_cases hk : k' = k
    · rw [if_pos hk, List.map_cons]
      rcases List.mem_cons.mp h with hj | hj
      · exact List.mem_cons.mpr (Or.inl hj)
      · exact List.mem_cons_of_mem _ hj
    · rw [if_neg hk, List.map_cons]
      rcases List.mem_cons.mp h with hj | hj
      · exact List.mem_cons.mpr (Or.inl hj)
      · exact List.mem_cons_of_mem _ (ih hj)

theorem mem_of_lookupD {V : Type} (m : List (SeriesKey × V)) (k : SeriesKey) (d : V)
    (h : k ∈ m.map Prod.fst) : (k, lookupD m k d) ∈ m := by
  induction m with
  | nil => simp at h
  | cons p t ih =>
    obtain ⟨k', v⟩ := p
    by_cases hk : k' = k
    · subst hk
      unfold lookupD
      simp
    · have h' : k ∈ t.map Prod.fst := by
        rcases List.mem_cons.mp h with hj | hj
        · exact absurd hj.symm hk
        · exact hj
      unfold lookupD
      simp only [hk, if_false]
      exact List.mem_cons_of_mem _ (ih h')

theorem record_counterInc_ok (st : RegA) (n : String) (ls : List String) (a : ℚ)
    (h : counterIncOk (Event.counterInc n ls a) = true) :
    st.record (Event.counterInc n ls a) =
      .ok { st with counters := bumpWith st.counters (n, ls) 0 (· + a) } := by
  simp only [counterIncOk] at h
  simp only [RegA.record]
  cases hfd : findDef promDefs n with
  | none =>
    simp only [hfd] at h
    simp at h
  | some d =>
    simp only [hfd, Bool.and_eq_true, decide_eq_true_eq] at h
    obtain ⟨⟨hkind, hlen⟩, ha⟩ := h
    simp only [hfd]
    rw [if_neg (by simp [hkind]), if_neg (by simp [hlen]), if_neg (not_lt.mpr ha)]

theorem recordAll_counters (evs : List Event) :
    ∀ st : RegA, (∀ e ∈ evs, counterIncOk e = true) →
      (st.recordAll evs).2 = none ∧
      (∀ k : SeriesKey, lookupD (st.recordAll evs).1.counters k 0 =
        lookupD st.counters k 0 + sumAmounts evs k.1 k.2) ∧
      (∀ k : SeriesKey, (k ∈ st.counters.map Prod.fst ∨ hasIncTo evs k.1 k.2 = true) →
        k ∈ (st.recordAll evs).1.counters.map Prod.fst) := by
  induction evs with
  | nil =>
    intro st _
    refine ⟨rfl, fun k => by simp [RegA.recordAll, sumAmounts], fun k hk => ?_⟩
    rcases hk with hk | hk
    · exact hk
    · simp [hasIncTo] at hk
  | cons e es ih =>
    intro st h
    have he := h e (List.mem_cons_self e es)
    cases e with
    | counterInc n ls a =>
      have hrec := record_counterInc_ok st n ls a he
      have hstep : st.recordAll (Event.counterInc n ls a :: es) =
          RegA.recordAll { st with counters := bumpWith st.counters (n, ls) 0 (· + a) } es := by
        simp only [RegA.recordAll, hrec]
      obtain ⟨ih1, ih2, ih3⟩ :=
        ih { st with counters := bumpWith st.counters (n, ls) 0 (· + a) }
          (fun e' he' => h e' (List.mem_cons_of_mem _ he'))
      rw [hstep]
      refine ⟨ih1, fun k => ?_, fun k hk => ?_⟩
      · rw [ih2 k]
        have hsum : sumAmounts (Event.counterInc n ls a :: es) k.1 k.2 =
            (if n = k.1 ∧ ls = k.2 then a else 0) + sumAmounts es k.1 k.2 := by
          unfold sumAmounts
          simp only [List.filterMap_cons]
          by_cases hnk : n = k.1 ∧ ls = k.2
          · rw [if_pos hnk, if_pos hnk]
            simp
          · rw [if_neg hnk, if_neg hnk]
            simp
        rw [hsum]
        by_cases hke : k = (n, ls)
        · subst hke
          rw [lookupD_bumpWith_self, if_pos ⟨rfl, rfl⟩]
          ring
        · have hne : ¬(n = k.1 ∧ ls = k.2) := by
            intro hc
            exact hke (Prod.ext hc.1.symm hc.2.symm)
          rw [lookupD_bumpWith_ne _ _ _ _ _ _ hke, if_neg hne]
          ring
      · apply ih3 k
        rcases hk with hk | hk
        · exact Or.inl (mem_keys_bumpWith_mono _ _ _ _ _ hk)
        · unfold hasIncTo at hk
          rw [List.any_cons] at hk
          rcases Bool.or_eq_true_iff.mp hk with hk | hk
          · simp only [Bool.and_eq_true, decide_eq_true_eq] at hk
            obtain ⟨h1, h2⟩ := hk
            subst h1
            subst h2
            exact Or.inl (by simpa using mem_keys_bumpWith_self st.counters (k.1, k.2) 0 (· + a))
          · exact Or.inr hk
    | gaugeSet n ls v => simp [counterIncOk] at he
    | histObserve n ls v => simp [counterIncOk] at he
    | summaryObserve n ls v => simp [counterIncOk] at he

/-! ## Claim theorems -/

/-- C2: one `/generatemetrics` generator run records, whatever the oracle
draws: exactly 50 HTTP request-counter increments (and 50 duration, 50
summary and 50 response-size observations), 30 database-histogram
observations, one system pass (3 connection-gauge sets, 3 memory-gauge sets,
3 queue-gauge sets, 1 CPU-gauge set, 2 byte-counter increments), and 40
payload-summary observations. -/
theorem generatemetrics_fixed_sample_counts (u : UnitOracle) (pos : ℕ) :
    sampleCount (genAllProm u pos).1 ("counter", "http_requests_total") = 50 ∧
    sampleCount (genAllProm u pos).1 ("histogram", "http_request_duration_seconds") = 50 ∧
    sampleCount (genAllProm u pos).1 ("summary", "request_duration_seconds_summary") = 50 ∧
    sampleCount (genAllProm u pos).1 ("histogram", "response_size_bytes") = 50 ∧
    sampleCount (genAllProm u pos).1 ("histogram", "db_query_duration_seconds") = 30 ∧
    sampleCount (genAllProm u pos).1 ("gauge", "active_connections") = 3 ∧
    sampleCount (genAllProm u pos).1 ("gauge", "memory_usage_bytes") = 3 ∧
    sampleCount (genAllProm u pos).1 ("gauge", "queue_size") = 3 ∧
    sampleCount (genAllProm u pos).1 ("gauge", "cpu_usage_percent") = 1 ∧
    sampleCount (genAllProm u pos).1 ("counter", "bytes_processed_total") = 2 ∧
    sampleCount (genAllProm u pos).1 ("summary", "payload_size_bytes_summary") = 40 := by
  refine ⟨?_, ?_, ?_, ?_, ?_, ?_, ?_, ?_, ?_, ?_, ?_⟩ <;>
    first
      | simpa using genAllProm_count u pos _ 1 0 0 0
          (by decide) (by decide) (by decide) (by decide) (by decide)
      | simpa using genAllProm_count u pos _ 0 1 0 0
          (by decide) (by decide) (by decide) (by decide) (by decide)
      | simpa using genAllProm_count u pos _ 0 0 3 0
          (by decide) (by decide) (by decide) (by decide) (by decide)
      | simpa using genAllProm_count u pos _ 0 0 1 0
          (by decide) (by decide) (by decide) (by decide) (by decide)
      | simpa using genAllProm_count u pos _ 0 0 2 0
          (by decide) (by decide) (by decide) (by decide) (by decide)
      | simpa using genAllProm_count u pos _ 0 0 0 2
          (by decide) (by decide) (by decide) (by decide) (by decide)

/-- C3: for every histogram registered in registry A and every observation
sequence, the per-bucket cumulative counts (each counting all observations at
or below its boundary) are non-decreasing as the boundary increases, and the
series' total count — emitted both as the `+Inf` bucket and as `_count` —
equals the number of observations recorded. -/
theorem histogram_cumulative_and_count (d : MetricDef) (hd : d ∈ promDefs)
    (hk : d.kind = MetricKind.histogram) (obs : List ℚ) :
    (histAfter d.buckets obs).counts = d.buckets.map (fun b => countLE obs b) ∧
    List.Chain' (· ≤ ·) (histAfter d.buckets obs).counts ∧
    (histAfter d.buckets obs).cnt = obs.length := by
  refine histSeriesOk d.buckets ?_ obs
  fin_cases hd <;>
    norm_num [List.chain'_cons, List.chain'_nil, List.chain'_singleton]

/-- C3 witness: the HTTP duration histogram with observations
`[1/4, 3]`. -/
theorem histogram_cumulative_and_count_witness :
    (httpDurDef ∈ promDefs ∧ httpDurDef.kind = MetricKind.histogram) ∧
    ((histAfter httpDurDef.buckets [1/4, 3]).counts =
        httpDurDef.buckets.map (fun b => countLE [1/4, 3] b) ∧
      List.Chain' (· ≤ ·) (histAfter httpDurDef.buckets [1/4, 3]).counts ∧
      (histAfter httpDurDef.buckets [1/4, 3]).cnt = ([1/4, 3] : List ℚ).length) :=
  ⟨⟨by simp [promDefs, httpDurDef], rfl⟩,
   histogram_cumulative_and_count httpDurDef (by simp [promDefs, httpDurDef]) rfl [1/4, 3]⟩

/-- C1: starting from the fresh registry, after any finite sequence of valid
non-negative counter increments, no record call fails and the value held for
a series — the value emitted for it by the text serialization, which renders
exactly the `samplesFor` pairs — equals the exact sum of the amounts recorded
for that label-value tuple. -/
theorem serialized_counter_is_sum (evs : List Event) (nm : String) (ls : List String)
    (hok : ∀ e ∈ evs, counterIncOk e = true)
    (hrec : hasIncTo evs nm ls = true) :
    (RegA.start.recordAll evs).2 = none ∧
    lookupD (RegA.start.recordAll evs).1.counters (nm, ls) 0 = sumAmounts evs nm ls ∧
    (ls, sumAmounts evs nm ls) ∈ samplesFor (RegA.start.recordAll evs).1.counters nm := by
  obtain ⟨h1, h2, h3⟩ := recordAll_counters evs RegA.start hok
  have hval : lookupD (RegA.start.recordAll evs).1.counters (nm, ls) 0 =
      sumAmounts evs nm ls := by
    have := h2 (nm, ls)
    simpa [RegA.start, lookupD] using this
  refine ⟨h1, hval, ?_⟩
  have hkey : (nm, ls) ∈ (RegA.start.recordAll evs).1.counters.map Prod.fst := by
    apply h3 (nm, ls)
    exact Or.inr hrec
  have hpair := mem_of_lookupD (RegA.start.recordAll evs).1.counters (nm, ls) 0 hkey
  rw [hval] at hpair
  unfold samplesFor
  exact List.mem_filterMap.mpr ⟨((nm, ls), sumAmounts evs nm ls), hpair, by simp⟩

/-- C1 witness: two increments of 3 and 2 to one series of
`http_requests_total`, plus one increment of 7 to `bytes_processed_total`;
the series value is their exact per-series sum. -/
theorem serialized_counter_is_sum_witness :
    ((∀ e ∈ [Event.counterInc "http_requests_total" ["GET", "/users", "200"] 3,
             Event.counterInc "http_requests_total" ["GET", "/users", "200"] 2,
             Event.counterInc "bytes_processed_total" ["upload"] 7],
        counterIncOk e = true) ∧
      hasIncTo [Event.counterInc "http_requests_total" ["GET", "/users", "200"] 3,
             Event.counterInc "http_requests_total" ["GET", "/users", "200"] 2,
             Event.counterInc "bytes_processed_total" ["upload"] 7]
        "http_requests_total" ["GET", "/users", "200"] = true) ∧
    ((RegA.start.recordAll
        [Event.counterInc "http_requests_total" ["GET", "/users", "200"] 3,
         Event.counterInc "http_requests_total" ["GET", "/users", "200"] 2,
         Event.counterInc "bytes_processed_total" ["upload"] 7]).2 = none ∧
      lookupD (RegA.start.recordAll
        [Event.counterInc "http_requests_total" ["GET", "/users", "200"] 3,
         Event.counterInc "http_requests_total" ["GET", "/users", "200"] 2,
         Event.counterInc "bytes_processed_total" ["upload"] 7]).1.counters
        ("http_requests_total", ["GET", "/users", "200"]) 0 =
        sumAmounts
          [Event.counterInc "http_requests_total" ["GET", "/users", "200"] 3,
           Event.counterInc "http_requests_total" ["GET", "/users", "200"] 2,
           Event.counterInc "bytes_processed_total" ["upload"] 7]
          "http_requests_total" ["GET", "/users", "200"] ∧
      (["GET", "/users", "200"],
        sumAmounts
          [Event.counterInc "http_requests_total" ["GET", "/users", "200"] 3,
           Event.counterInc "http_requests_total" ["GET", "/users", "200"] 2,
           Event.counterInc "bytes_processed_total" ["upload"] 7]
          "http_requests_total" ["GET", "/users", "200"]) ∈
        samplesFor (RegA.start.recordAll
          [Event.counterInc "http_requests_total" ["GET", "/users", "200"] 3,
           Event.counterInc "http_requests_total" ["GET", "/users", "200"] 2,
           Event.counterInc "bytes_processed_total" ["upload"] 7]).1.counters
          "http_requests_total") :=
  ⟨⟨by
      intro e he
      fin_cases he <;> simp [counterIncOk, findDef, promDefs],
    by simp [hasIncTo]⟩,
   serialized_counter_is_sum _ _ _
     (by
       intro e he
       fin_cases he <;> simp [counterIncOk, findDef, promDefs])
     (by simp [hasIncTo])⟩

/-- C8: one iteration of the registry-A HTTP generator follows the branch
structure of the source: with the first post-label draw under 0.9 it records
status 200 with a duration in `[0.05, 2.0]`; otherwise a second draw under
0.5 gives status 404 with duration in `[0.01, 0.1]` and a `not_found` error
increment, else status 500 with duration in `[0.5, 5.0]` and an
`internal_error` increment; every branch increments the request counter by 1,
observes the duration in histogram and summary, and observes an integer
response size in `[100, 50000]`. -/
theorem http_generator_iteration (u : UnitOracle) (pos : ℕ) (hu : inUnit u) :
    httpIterSpec u pos := by
  simp only [httpIterSpec]
  refine ⟨?_, ?_, ?_⟩
  · intro h1
    refine ⟨uniform (1/20) 2 (u (pos + 3)), randint 100 50000 (u (pos + 4)),
      ?_, ?_, ?_, ?_, ?_⟩
    · simp only [genPromHttpIter]
      rw [if_pos h1]
    · exact (uniform_mem _ _ _ (by norm_num) (hu _).1 (hu _).2).1
    · exact (uniform_mem _ _ _ (by norm_num) (hu _).1 (hu _).2).2
    · exact randint_ge _ _ _
    · exact randint_le _ _ _ (by norm_num)
  · intro h1 h2
    refine ⟨uniform (1/100) (1/10) (u (pos + 4)), randint 100 50000 (u (pos + 5)),
      ?_, ?_, ?_, ?_, ?_⟩
    · simp only [genPromHttpIter]
      rw [if_neg h1, if_pos h2]
    · exact (uniform_mem _ _ _ (by norm_num) (hu _).1 (hu _).2).1
    · exact (uniform_mem _ _ _ (by norm_num) (hu _).1 (hu _).2).2
    · exact randint_ge _ _ _
    · exact randint_le _ _ _ (by norm_num)
  · intro h1 h2
    refine ⟨uniform (1/2) 5 (u (pos + 4)), randint 100 50000 (u (pos + 5)),
      ?_, ?_, ?_, ?_, ?_⟩
    · simp only [genPromHttpIter]
      rw [if_neg h1, if_neg h2]
    · exact (uniform_mem _ _ _ (by norm_num) (hu _).1 (hu _).2).1
    · exact (uniform_mem _ _ _ (by norm_num) (hu _).1 (hu _).2).2
    · exact randint_ge _ _ _
    · exact randint_le _ _ _ (by norm_num)

/-- C8 witness: the constant oracle `1/2` is a unit oracle and satisfies the
iteration specification at position 0. -/
theorem http_generator_iteration_witness :
    inUnit (fun _ => 1/2) ∧ httpIterSpec (fun _ => 1/2) 0 :=
  ⟨fun _ => by norm_num,
   http_generator_iteration (fun _ => 1/2) 0 (fun _ => by norm_num)⟩

/-- C4: serializing registry A is deterministic in the registry state — after
one `/generatemetrics` call, two consecutive `/metrics` requests with no
mutation in between produce byte-identical bodies (the `/metrics` route does
not mutate any state). -/
theorem metrics_twice_byte_identical (st : AppState) (u : UnitOracle) (pos : ℕ) :
    bodyOf (handle "GET" "/metrics"
        (handle "GET" "/metrics" (handle "GET" "/generatemetrics" st u pos).2.1 u
          (handle "GET" "/generatemetrics" st u pos).2.2).2.1 u
        (handle "GET" "/metrics" (handle "GET" "/generatemetrics" st u pos).2.1 u
          (handle "GET" "/generatemetrics" st u pos).2.2).2.2).1 =
      bodyOf (handle "GET" "/metrics" (handle "GET" "/generatemetrics" st u pos).2.1 u
        (handle "GET" "/generatemetrics" st u pos).2.2).1 ∧
    (handle "GET" "/metrics" (handle "GET" "/generatemetrics" st u pos).2.1 u
      (handle "GET" "/generatemetrics" st u pos).2.2).2.1 =
      (handle "GET" "/generatemetrics" st u pos).2.1 := by
  constructor <;> rfl

/-- C5: any request whose method is not GET or whose path is not one of the
five fixed routes gets status 404 with a non-empty plaintext body, and leaves
the process state (both registries and the gauge snapshot) unchanged. -/
theorem unrouted_request_404_state_unchanged (method path : String) (st : AppState)
    (u : UnitOracle) (pos : ℕ) (h : notFoundRequest method path) :
    notFoundOutcome method path st u pos := by
  have base : statusOf notFoundTranscript = some 404 ∧
      bodyOf notFoundTranscript ≠ "" ∧
      contentTypeOf notFoundTranscript = some "text/plain" := by
    decide
  have hh : handle method path st u pos = (notFoundTranscript, st, pos) := by
    by_cases hm : method = "GET"
    · subst hm
      rcases h with hm' | hp
      · exact absurd rfl hm'
      · simp only [fixedRoutes, List.mem_cons, List.not_mem_nil, or_false, not_or] at hp
        obtain ⟨h1, h2, h3, h4, h5⟩ := hp
        unfold handle
        rw [if_neg (by simp), if_neg h1, if_neg h2, if_neg h3, if_neg h4, if_neg h5]
    · unfold handle
      rw [if_pos hm]
  unfold notFoundOutcome
  rw [hh]
  exact ⟨rfl, base.1, base.2.1, base.2.2, rfl⟩

/-- C5 witness: `GET /nonexistent` takes the not-found branch and changes
nothing. -/
theorem unrouted_request_404_state_unchanged_witness :
    notFoundRequest "GET" "/nonexistent" ∧
      notFoundOutcome "GET" "/nonexistent" AppState.start (fun _ => 0) 0 :=
  ⟨Or.inr (by decide), unrouted_request_404_state_unchanged "GET" "/nonexistent" AppState.start
    (fun _ => 0) 0 (Or.inr (by decide))⟩

/-- C6 (evidence for the code bug): when a `record` call fails while handling
`/generatemetrics`, the transcript has already carried status 200 — the
client never sees a 500 — while the error is logged and the handler simply
stops writing (the process survives). -/
theorem record_error_still_status_200 :
    statusOf (generateTranscript "prometheus" (some RecordError.invalidValue) promGenBody) =
      some 200 ∧
    Wire.sendStatus 500 ∉
      generateTranscript "prometheus" (some RecordError.invalidValue) promGenBody ∧
    Wire.logError RecordError.invalidValue ∈
      generateTranscript "prometheus" (some RecordError.invalidValue) promGenBody := by
  refine ⟨rfl, by decide, by decide⟩

/-- C7: the `/otelmetrics` body is the rendering of a JSON value (hence valid
JSON), its resource attributes are exactly the four fixed at process start,
and they are untouched by a `/generateotelmetrics` invocation (hence by any
number of them). -/
theorem otelmetrics_fixed_resource_attrs (st : AppState) (u : UnitOracle) (pos : ℕ) :
    bodyOf (handle "GET" "/otelmetrics" st u pos).1 =
      Json.render (otelSummary st.otelGauges) ∧
    jsonParses (bodyOf (handle "GET" "/otelmetrics" st u pos).1) ∧
    otelResourceAttrs (otelSummary st.otelGauges) =
      startupResource.map (fun p => (p.1, Json.str p.2)) ∧
    otelResourceAttrs
        (otelSummary ((handle "GET" "/generateotelmetrics" st u pos).2.1).otelGauges) =
      otelResourceAttrs (otelSummary st.otelGauges) := by
  refine ⟨rfl, ⟨otelSummary st.otelGauges, rfl⟩, rfl, rfl⟩

/-- C9: in the termination-signal path of `run_server`, the `app_state` enum
moves to `shutting_down` — a declared, terminal state — strictly before the
`server.shutdown()` call that stops the listener. -/
theorem shutdown_state_set_before_listener_stops :
    terminationSteps.indexOf (ShutdownStep.setAppState "shutting_down") <
      terminationSteps.indexOf ShutdownStep.serverShutdownCall ∧
    appStateAfter (terminationSteps.takeWhile
      (fun s => s != ShutdownStep.serverShutdownCall)) "running" = "shutting_down" ∧
    "shutting_down" ∈ appStateStates ∧
    appStateStates.getLast? = some "shutting_down" := by
  decide

/-- C10: both generator routes emit the 200 status line and the headers
before the generator set runs, and a generator-route transcript never carries
any status other than 200, whether generation succeeds or fails. -/
theorem generator_routes_status_before_generation (st : AppState) (u : UnitOracle)
    (pos : ℕ) (err : Option RecordError) (okBody : String) :
    (handle "GET" "/generatemetrics" st u pos).1.take 4 =
      [Wire.sendStatus 200, Wire.sendHeader "Content-type" "text/plain",
       Wire.endHeaders, Wire.runGenerators "prometheus"] ∧
    (handle "GET" "/generateotelmetrics" st u pos).1.take 4 =
      [Wire.sendStatus 200, Wire.sendHeader "Content-type" "text/plain",
       Wire.endHeaders, Wire.runGenerators "otel"] ∧
    statusOf (generateTranscript "prometheus" err okBody) = some 200 ∧
    (∀ n, Wire.sendStatus n ∈ generateTranscript "prometheus" err okBody → n = 200) := by
  have hgen : ∀ (e : Option RecordError) (b : String),
      (generateTranscript "prometheus" e b).take 4 =
        [Wire.sendStatus 200, Wire.sendHeader "Content-type" "text/plain",
         Wire.endHeaders, Wire.runGenerators "prometheus"] := by
    intro e b
    cases e <;> rfl
  refine ⟨hgen _ _, rfl, ?_, ?_⟩
  · cases err <;> rfl
  · intro n hn
    cases err <;>
      simp only [generateTranscript, List.cons_append, List.nil_append, List.mem_cons,
        List.not_mem_nil, or_false, false_or, Wire.sendStatus.injEq, reduceCtorEq] at hn <;>
      exact hn

end PromSim
